import Mathlib

/-!
Verification of the swasthya-ai (HealthLLM starter) request/response contracts.

The embedding models the four Next.js API route handlers
(`pages/api/auth/login.js`, the signup handler, and the upload and llm
handlers in `pages/api/upload.js`) and the request-orchestration logic of
the three pages (`pages/index.js`, `pages/dashboard.js`, and the upload
page). Handlers are pure functions from (method, parsed request body) to a
response; page submit handlers are functions from local state and the
observed HTTP response to the resulting state or the list of UI effects.
-/

/-- JavaScript truthiness of an optional string value: `undefined` (here
`none`) and the empty string are falsy, every other string is truthy.
Used for the `username && password` checks in the auth handlers. -/
def truthy : Option String → Bool
  | none => false
  | some s => !(s == "")

/-- The client-held form record of `pages/index.js` as received by the auth
handlers after JSON parsing: every field may be absent (`none` models
`undefined`). The login page sends only `username` and `password`; the
signup page sends the full record. -/
structure ProfileBody where
  name : Option String := none
  age : Option String := none
  username : Option String := none
  password : Option String := none
  disease : Option String := none
  email : Option String := none
  phone : Option String := none
  foodHabits : Option String := none
  gender : Option String := none
deriving DecidableEq, Repr

/-- The JSON bodies the stub handlers produce: `res.json({ok})`,
`res.json({ok, filename})` and `res.json({text})`. -/
inductive JsonVal where
  | okFlag (ok : Bool)
  | okFilename (ok : Bool) (filename : Option String)
  | textVal (text : String)
deriving DecidableEq, Repr

/-- An HTTP response as produced by a handler: a status code and an
optional JSON body (`res.status(s).end()` produces no body, modelled as
`none`; `res.status(s).json(v)` produces `some v`). -/
structure ApiResponse where
  status : Nat
  body : Option JsonVal
deriving DecidableEq, Repr

/-- Handler of `pages/api/auth/login.js`.

`req.body` is the value produced by the Next.js JSON body parser: an
object (modelled `some b`) when the request carried a JSON object body,
and a falsy value (the empty string, modelled `none`) when it carried no
body. The parser never hands the handler `undefined` or `null`, so the
destructuring `const \x7b username, password \x7d = req.body` never throws;
destructuring a field from the falsy empty-string body yields `undefined`,
modelled by `Option.bind`. -/
def loginHandler (method : String) (body : Option ProfileBody) : ApiResponse :=
  if method ≠ "POST" then ⟨405, none⟩
  else
    let username := body.bind ProfileBody.username
    let password := body.bind ProfileBody.password
    if truthy username && truthy password then ⟨200, some (.okFlag true)⟩
    else ⟨400, some (.okFlag false)⟩

/-- Signup handler (`src/unnamed/part_002`, the body of
`pages/api/auth/signup.js`). It guards on `body && body.username &&
body.password`: a falsy `req.body` (modelled `none`) short-circuits to the
400 branch. -/
def signupHandler (method : String) (body : Option ProfileBody) : ApiResponse :=
  if method ≠ "POST" then ⟨405, none⟩
  else
    match body with
    | none => ⟨400, some (.okFlag false)⟩
    | some b =>
      if truthy b.username && truthy b.password then ⟨200, some (.okFlag true)⟩
      else ⟨400, some (.okFlag false)⟩

/-- A file entry as reported by formidable: `originalFilename` may be a
string or `null` (modelled `none`). -/
structure FormFile where
  originalFilename : Option String
deriving DecidableEq, Repr

/-- The `files` object handed to the upload handler's parse callback:
the handler only reads `files.file`. -/
structure FormFiles where
  file : Option FormFile
deriving DecidableEq, Repr

/-- Outcome of `form.parse(req, (err, fields, files) => ...)`: either the
callback receives an error, or it receives the parsed fields and files. -/
inductive ParseOutcome where
  | parseErr
  | parsed (fields : List (String × String)) (files : FormFiles)
deriving DecidableEq, Repr

/-- Upload handler (first handler in `pages/api/upload.js`). On parse
error it responds 500 with no body; otherwise it responds 200 with
`\x7bok:true, filename: files.file?.originalFilename || null\x7d`. The `||`
operator maps every falsy left operand — an absent file, a `null` original
name, and also the empty-string name — to `null`. -/
def uploadHandler (method : String) (parse : ParseOutcome) : ApiResponse :=
  if method ≠ "POST" then ⟨405, none⟩
  else
    match parse with
    | .parseErr => ⟨500, none⟩
    | .parsed _ files =>
      let filename :=
        match files.file with
        | none => none
        | some f =>
          match f.originalFilename with
          | none => none
          | some s => if s = "" then none else some s
      ⟨200, some (.okFilename true filename)⟩

/-- JavaScript template-string interpolation of a possibly-absent string:
`undefined` interpolates as the literal text "undefined". -/
def jsTemplate : Option String → String
  | none => "undefined"
  | some s => s

/-- The deterministic response text of the llm stub (second handler in
`pages/api/upload.js`): the template string embedding the prompt. -/
def llmText (prompt : Option String) : String :=
  "Simulated LLM answer for prompt: \"" ++ jsTemplate prompt ++
    "\"\n\n(Replace /api/llm with your real LLM integration.)"

/-- The llm stub handler: on POST it always responds 200 with
`\x7btext\x7d`; on any other method 405 with no body. -/
def llmHandler (method : String) (prompt : Option String) : ApiResponse :=
  if method ≠ "POST" then ⟨405, none⟩
  else ⟨200, some (.textVal (llmText prompt))⟩

/-- One question/answer pair of the dashboard history. The `output` field
holds `data.text` from the parsed response, which is `undefined`
(modelled `none`) when the parsed JSON has no `text` field. -/
structure QueryExchange where
  input : String
  output : Option String
deriving DecidableEq, Repr

/-- The local state of `pages/dashboard.js`: the controlled query input
and the results list. -/
structure DashboardState where
  query : String
  results : List QueryExchange
deriving DecidableEq, Repr

/-- Initial dashboard state: `useState('')` and `useState([])`. -/
def initialDashboard : DashboardState := ⟨"", []⟩

/-- What `askLLM` observes of a completed fetch: either `res.json()`
resolves with a body whose `text` field is `t` (possibly absent), or
`res.json()` rejects because the body is not JSON (e.g. the empty body of
a 405). The HTTP status is carried but — matching the source — `askLLM`
never inspects it. -/
inductive FetchResult where
  | jsonBody (status : Nat) (text : Option String)
  | jsonError (status : Nat)
deriving DecidableEq, Repr

/-- The `askLLM` submit handler of `pages/dashboard.js` as a state
transition. When `res.json()` resolves, it unconditionally prepends
`\x7binput: query, output: data.text\x7d` and clears the query — there is no
`res.ok` check anywhere in `askLLM`. When `res.json()` rejects, the
exception aborts the handler before either state update runs. -/
def askLLM (st : DashboardState) : FetchResult → DashboardState
  | .jsonError _ => st
  | .jsonBody _ t => { query := "", results := ⟨st.query, t⟩ :: st.results }

/-- How the fetch in `askLLM` observes an `ApiResponse`: a missing body
makes `res.json()` reject; a `\x7btext\x7d` body yields its `text` field; any
other JSON body yields `data.text = undefined`. -/
def toFetchResult (r : ApiResponse) : FetchResult :=
  match r.body with
  | none => .jsonError r.status
  | some (.textVal t) => .jsonBody r.status (some t)
  | some _ => .jsonBody r.status none

/-- Typing into the dashboard's controlled input sets `query`. -/
def typeQuery (st : DashboardState) (s : String) : DashboardState :=
  { st with query := s }

/-- A full dashboard submit against the llm stub: `askLLM` sends
`\x7bprompt: query\x7d` to `/api/llm` via POST and processes the response. -/
def submitQuery (st : DashboardState) : DashboardState :=
  askLLM st (toFetchResult (llmHandler "POST" (some st.query)))

/-- The observable UI effects of the page submit handlers. -/
inductive UIAction where
  | fetchPost (route : String)
  | alertMsg (msg : String)
  | navigate (path : String)
deriving DecidableEq, Repr

/-- `res.ok` of the Fetch API: status in the range 200–299. -/
def fetchOk (status : Nat) : Bool := 200 ≤ status && status ≤ 299

/-- Effect trace of `handleLogin` in `pages/index.js`, given the status of
the response to the POST: navigate to the dashboard on `res.ok`, otherwise
alert. -/
def handleLogin (status : Nat) : List UIAction :=
  [.fetchPost "/api/auth/login"] ++
    (if fetchOk status then [.navigate "/dashboard"] else [.alertMsg "Login failed"])

/-- Effect trace of `handleSignup` in `pages/index.js`. -/
def handleSignup (status : Nat) : List UIAction :=
  [.fetchPost "/api/auth/signup"] ++
    (if fetchOk status then [.navigate "/dashboard"] else [.alertMsg "Sign up failed"])

/-- Effect trace of the upload page's `submit` handler: with no file
selected it alerts and returns before any fetch; otherwise it fetches and
branches on `res.ok` (alerting then navigating on success). -/
def uploadSubmit (file : Option FormFile) (status : Nat) : List UIAction :=
  match file with
  | none => [.alertMsg "Choose a PDF"]
  | some _ =>
    [.fetchPost "/api/upload"] ++
      (if fetchOk status then [.alertMsg "Uploaded", .navigate "/dashboard"]
       else [.alertMsg "Upload failed"])

/-- C1: for every POST to /api/auth/login or /api/auth/signup whose body
carries non-empty string values for both `username` and `password`, the
handler responds 200 with body `{ok:true}`. -/
theorem auth_valid_credentials_ok (b : ProfileBody) (u p : String)
    (hu : b.username = some u) (hp : b.password = some p)
    (hune : u ≠ "") (hpne : p ≠ "") :
    loginHandler "POST" (some b) = ⟨200, some (.okFlag true)⟩ ∧
    signupHandler "POST" (some b) = ⟨200, some (.okFlag true)⟩ := by
  have htu : truthy b.username = true := by simp [hu, truthy, hune]
  have htp : truthy b.password = true := by simp [hp, truthy, hpne]
  constructor
  · simp [loginHandler, htu, htp]
  · simp [signupHandler, htu, htp]

/-- Witness for C1 at `username = "alice"`, `password = "secret"`. -/
theorem auth_valid_credentials_ok_witness :
    loginHandler "POST" (some { username := some "alice", password := some "secret" })
      = ⟨200, some (.okFlag true)⟩ :=
  (auth_valid_credentials_ok { username := some "alice", password := some "secret" }
    "alice" "secret" rfl rfl (by decide) (by decide)).1

/-- C2: for every POST to /api/auth/login or /api/auth/signup whose body
is missing `username` or missing `password` — including the absent-body
case, `body = none` — the handler responds 400 with `{ok:false}`. -/
theorem auth_missing_field_bad_request (b : Option ProfileBody)
    (h : b.bind ProfileBody.username = none ∨ b.bind ProfileBody.password = none) :
    loginHandler "POST" b = ⟨400, some (.okFlag false)⟩ ∧
    signupHandler "POST" b = ⟨400, some (.okFlag false)⟩ := by
  cases b with
  | none => constructor <;> rfl
  | some b =>
    have h' : b.username = none ∨ b.password = none := h
    have hf : (truthy b.username && truthy b.password) = false := by
      rcases h' with h' | h' <;> simp [h', truthy]
    constructor
    · simp [loginHandler, hf]
    · simp [signupHandler, hf]

/-- Witness for C2 at an absent body. -/
theorem auth_missing_field_bad_request_witness :
    loginHandler "POST" none = ⟨400, some (.okFlag false)⟩ :=
  (auth_missing_field_bad_request none (Or.inl rfl)).1

/-- C3: every non-POST request to any of the four API routes gets a 405
response with an empty body, whatever the body, parse outcome or prompt —
no other branch of any handler runs. -/
theorem non_post_method_not_allowed (m : String) (hm : m ≠ "POST")
    (b : Option ProfileBody) (parse : ParseOutcome) (q : Option String) :
    loginHandler m b = ⟨405, none⟩ ∧ signupHandler m b = ⟨405, none⟩ ∧
    uploadHandler m parse = ⟨405, none⟩ ∧ llmHandler m q = ⟨405, none⟩ := by
  refine ⟨?_, ?_, ?_, ?_⟩ <;>
    simp [loginHandler, signupHandler, uploadHandler, llmHandler, hm]

/-- Witness for C3 at method "GET". -/
theorem non_post_method_not_allowed_witness :
    loginHandler "GET" none = ⟨405, none⟩ :=
  (non_post_method_not_allowed "GET" (by decide) none .parseErr none).1

/-- C4: every POST to /api/llm with a prompt string gets a 200 response
whose `text` contains the submitted prompt verbatim as a substring, and a
POST never gets any status other than 200. -/
theorem llm_post_echoes_prompt (p : String) (q : Option String) :
    llmHandler "POST" (some p) = ⟨200, some (.textVal (llmText (some p)))⟩ ∧
    (∃ pre post, llmText (some p) = pre ++ p ++ post) ∧
    (llmHandler "POST" q).status = 200 := by
  refine ⟨rfl, ⟨"Simulated LLM answer for prompt: \"",
    "\"\n\n(Replace /api/llm with your real LLM integration.)", rfl⟩, rfl⟩

/-- C5 counterexample: a parsed form whose file has the empty string as
its original name yields `filename:null`, not `filename:""` — the `||`
in `files.file?.originalFilename || null` collapses the falsy empty
string to `null`, so the claim fails at `N = ""`. -/
theorem upload_empty_name_counterexample :
    uploadHandler "POST"
        (.parsed [] { file := some { originalFilename := some "" } })
      = ⟨200, some (.okFilename true none)⟩ ∧
    (⟨200, some (.okFilename true none)⟩ : ApiResponse)
      ≠ ⟨200, some (.okFilename true (some ""))⟩ := by
  exact ⟨rfl, by decide⟩

/-- C5 amended: on parse failure the upload handler responds 500 with no
body; on success, when the form's `file` field has a non-empty original
name `n`, it responds 200 with `{ok:true, filename:n}`. -/
theorem upload_contract (fields : List (String × String)) (f : FormFile)
    (n : String) (hn : n ≠ "") :
    uploadHandler "POST" .parseErr = ⟨500, none⟩ ∧
    (f.originalFilename = some n →
      uploadHandler "POST" (.parsed fields { file := some f })
        = ⟨200, some (.okFilename true (some n))⟩) := by
  refine ⟨rfl, fun hf => ?_⟩
  simp [uploadHandler, hf, hn]

/-- Witness for C5 amended at `report.pdf`. -/
theorem upload_contract_witness :
    uploadHandler "POST"
        (.parsed [] { file := some { originalFilename := some "report.pdf" } })
      = ⟨200, some (.okFilename true (some "report.pdf"))⟩ :=
  (upload_contract [] { originalFilename := some "report.pdf" } "report.pdf"
    (by decide)).2 rfl

/-- C6: starting from the empty dashboard, submitting prompt "A" and
then, after its response arrives, prompt "B" yields the exchange list
`[{input:"B",...}, {input:"A",...}]`; in general every submit prepends
the new exchange ahead of all earlier ones. -/
theorem dashboard_newest_first :
    submitQuery (typeQuery (submitQuery (typeQuery initialDashboard "A")) "B")
      = { query := "",
          results := [{ input := "B", output := some (llmText (some "B")) },
                      { input := "A", output := some (llmText (some "A")) }] } ∧
    ∀ st : DashboardState,
      (submitQuery st).results
        = { input := st.query, output := some (llmText (some st.query)) } :: st.results := by
  exact ⟨rfl, fun st => rfl⟩

/-- C7 counterexample: a non-success response (status 500) whose body
parses as JSON still gets prepended — `askLLM` contains no `res.ok`
check, so the list does not stay unchanged. -/
theorem dashboard_prepends_despite_error :
    askLLM { query := "q", results := [] } (.jsonBody 500 (some "oops"))
      = { query := "", results := [{ input := "q", output := some "oops" }] } ∧
    ({ query := "", results := [{ input := "q", output := some "oops" }] } : DashboardState).results
      ≠ ([] : List QueryExchange) := by
  exact ⟨rfl, by decide⟩

/-- C7 amended: `askLLM` prepends the exchange whenever the response body
parses as JSON, regardless of the HTTP status; the list is left unchanged
exactly when `res.json()` rejects (e.g. on an empty body). -/
theorem dashboard_prepend_ignores_status (st : DashboardState) (status : Nat)
    (t : Option String) :
    (askLLM st (.jsonBody status t)).results = ⟨st.query, t⟩ :: st.results ∧
    askLLM st (.jsonError status) = st := by
  exact ⟨rfl, rfl⟩

/-- C8: on every Home-page submit (login or signup) and every Upload-page
submit with a file selected, a success status leads to navigation to
/dashboard and a non-success status to an alert with no navigation; an
Upload-page submit with no file selected alerts and issues no fetch. -/
theorem page_submit_navigation (s : Nat) (f : FormFile) :
    (UIAction.navigate "/dashboard" ∈ handleLogin s ↔ fetchOk s = true) ∧
    (UIAction.navigate "/dashboard" ∈ handleSignup s ↔ fetchOk s = true) ∧
    (UIAction.navigate "/dashboard" ∈ uploadSubmit (some f) s ↔ fetchOk s = true) ∧
    (fetchOk s = false →
      UIAction.alertMsg "Login failed" ∈ handleLogin s ∧
      UIAction.alertMsg "Sign up failed" ∈ handleSignup s ∧
      UIAction.alertMsg "Upload failed" ∈ uploadSubmit (some f) s) ∧
    uploadSubmit none s = [UIAction.alertMsg "Choose a PDF"] := by
  by_cases h : fetchOk s = true <;>
    simp [handleLogin, handleSignup, uploadSubmit, h]

/-- Witness for C8: with a 200 response the login submit navigates, and
with a 400 response it alerts. -/
theorem page_submit_navigation_witness :
    UIAction.navigate "/dashboard" ∈ handleLogin 200 ∧
    UIAction.alertMsg "Login failed" ∈ handleLogin 400 :=
  ⟨(page_submit_navigation 200 { originalFilename := none }).1.mpr (by decide),
   ((page_submit_navigation 400 { originalFilename := none }).2.2.2.1 (by decide)).1⟩

/-- C9: a POST to /api/upload whose multipart body parses successfully
but contains no `file` field still gets 200 with
`{ok:true, filename:null}`, whatever the other fields are. -/
theorem upload_missing_file_still_ok (fields : List (String × String)) :
    uploadHandler "POST" (.parsed fields { file := none })
      = ⟨200, some (.okFilename true none)⟩ := rfl

/-- C10: the signup handler's response depends only on the `username` and
`password` fields — two bodies agreeing on those two fields get identical
responses, whatever the other profile fields hold, for every method. -/
theorem signup_depends_only_on_credentials (m : String) (b1 b2 : ProfileBody)
    (hu : b1.username = b2.username) (hp : b1.password = b2.password) :
    signupHandler m (some b1) = signupHandler m (some b2) := by
  simp [signupHandler, hu, hp]

/-- Witness for C10: two profiles sharing credentials but differing in
name, email and phone get the same response. -/
theorem signup_depends_only_on_credentials_witness :
    signupHandler "POST"
        (some { username := some "u", password := some "p",
                name := some "Alice", email := some "alice@example.com" })
      = signupHandler "POST"
        (some { username := some "u", password := some "p",
                name := some "Bob", phone := some "12345" }) :=
  signup_depends_only_on_credentials "POST" _ _ rfl rfl
